import Mathlib

/-!
Verification development of the qr_splitter repository (src/app.py).

The file shallowly embeds the pure computational content of app.py:
the sequence expander `generate_split_qrs`, the label compositor
`create_label_pages` (canvas geometry, caption font auto-shrink,
vertical centering), the PDF page assembler `save_pages_to_pdf_bytes`,
and the empty-input guard of the Generate-and-Split submit handler.

External library calls (Pillow image rasters, the qrcode encoder, the
OpenCV decoder, font loading and text measurement) are modelled
abstractly: an image is its integer pixel dimensions, QR generation is
an arbitrary function `make_qr : String → PILImage`, and text
measurement is an arbitrary function
`measure : String → Int → Int × Int` giving (width, height) of a text
rendered at a font size.  Python floats are modelled as rationals,
Python ints as `Int`; Python `//` (floor division) by the positive
literal 2 coincides with Lean integer division `/`.
-/

namespace QrSplitter

/-- An abstract raster image: only its pixel dimensions are observable
in the embedding. -/
structure PILImage where
  width : Int
  height : Int
  deriving DecidableEq

/-- Python `range(a, b)` over integers, as the list a, a+1, ..., b-1
(empty when b ≤ a). -/
def pyRange (a b : Int) : List Int :=
  (List.range (b - a).toNat).map (fun k => a + (k : Int))

/-- Python `int(x)` on a rational: truncation toward zero. -/
def pyInt (q : ℚ) : Int := if 0 ≤ q then ⌊q⌋ else ⌈q⌉

/-- Python `round(x)` on a rational: nearest integer, ties to even
(banker's rounding). -/
def pyRound (q : ℚ) : Int :=
  if q - ⌊q⌋ < 1/2 then ⌊q⌋
  else if 1/2 < q - ⌊q⌋ then ⌊q⌋ + 1
  else if ⌊q⌋ % 2 = 0 then ⌊q⌋ else ⌊q⌋ + 1

/-- Python `str.strip()`: remove leading and trailing whitespace. -/
def pyStrip (s : String) : String :=
  ⟨((s.data.dropWhile Char.isWhitespace).reverse.dropWhile Char.isWhitespace).reverse⟩

/-- app.py lines 19-34, `generate_split_qrs(base_text, count)`:
for i in range(1, count+1), the payload is f"{base_text}-{i}" when
count > 1 and base_text unchanged when count == 1; each payload is
paired with its QR image.  The external qrcode library call is the
abstract parameter `make_qr`. -/
def generate_split_qrs (make_qr : String → PILImage) (base_text : String)
    (count : Int) : List (String × PILImage) :=
  (pyRange 1 (count + 1)).map (fun i =>
    let data := if count > 1 then base_text ++ "-" ++ toString i else base_text
    (data, make_qr data))

/-- The result of `save_pages_to_pdf_bytes`: either the empty byte
string, or a PDF document carrying its ordered list of pages. -/
inductive PDFOutput (α : Type) where
  | emptyBytes : PDFOutput α
  | pdf : List α → PDFOutput α
  deriving DecidableEq

/-- Number of pages serialized into the output (the empty byte string
contains none). -/
def PDFOutput.numPages {α : Type} : PDFOutput α → Nat
  | .emptyBytes => 0
  | .pdf ps => ps.length

/-- app.py lines 107-113, `save_pages_to_pdf_bytes(pages)`: returns
b"" for an empty page list, else a PDF whose first page is pages[0]
and whose appended pages are pages[1:], in order. -/
def save_pages_to_pdf_bytes {α : Type} (pages : List α) : PDFOutput α :=
  match pages with
  | [] => .emptyBytes
  | p :: rest => .pdf (p :: rest)

/-- The error taxonomy named by the spec (section 7). -/
inductive AppError where
  | invalidInput : AppError
  | notFound : AppError
  deriving DecidableEq

/-- Modelled from the spec's words (section 4.2), for comparison with
the source's `generate_split_qrs`: the sequence expander is said to
fail with `InvalidInput` when count < 1 or the base is empty after
trimming, and otherwise to return the payload list. -/
def sequence_expander_spec (base : String) (count : Int) :
    Except AppError (List String) :=
  if count < 1 ∨ pyStrip base = "" then .error .invalidInput
  else if count = 1 then .ok [base]
  else .ok ((pyRange 1 (count + 1)).map (fun i => base ++ "-" ++ toString i))

/-- app.py lines 163-168, the Generate-and-Split submit handler:
when the text input is empty after stripping, an error message is
shown and `generate_split_qrs` is never called; otherwise the stripped
input is expanded. -/
def generate_mode_submit (make_qr : String → PILImage) (text_input : String)
    (count : Int) : Except String (List (String × PILImage)) :=
  if pyStrip text_input = "" then .error "Please enter some text."
  else .ok (generate_split_qrs make_qr (pyStrip text_input) count)

/-- The layout configuration of `create_label_pages` (app.py lines
52-62), with the source's default keyword-argument values.  The
minimum caption font size is the literal 8 in the source. -/
structure LabelConfig where
  label_width_in : ℚ := 1
  label_height_in : ℚ := 5/2
  dpi : ℚ := 300
  border_thickness_px : Int := 2
  qr_width_ratio : ℚ := 3/4
  font_width_ratio : ℚ := 2/5
  vertical_spacing_px : Int := 20
  inner_margin_px : Int := 8

/-- One finished label canvas: the observable outcome of one
iteration of the loop in `create_label_pages` — canvas dimensions,
border thickness, QR size and position, final caption font size and
measured extent, caption position, and the caption text. -/
structure Label where
  page_w : Int
  page_h : Int
  border_thickness_px : Int
  qr_size : Int
  font_size : Int
  tw : Int
  th : Int
  qr_x : Int
  qr_y : Int
  text_x : Int
  text_y : Int
  label_text : String
  deriving DecidableEq, Inhabited

/-- Fuel-counted unrolling of the caption auto-shrink while loop of
app.py lines 84-87: while the measured caption width exceeds
max_text_width and the size exceeds the minimum font size 8, the size
is decremented by one and the caption re-measured. -/
def shrink_font_aux (measure : String → Int → Int × Int) (text : String)
    (max_text_width : Int) : Nat → Int → Int
  | 0, size => size
  | fuel + 1, size =>
    if (measure text size).1 > max_text_width ∧ size > 8 then
      shrink_font_aux measure text max_text_width fuel (size - 1)
    else size

/-- The caption auto-shrink loop (app.py lines 84-87).  The loop
decrements an integer size while it stays above 8, so it runs at most
(size - 8) iterations; that bound serves as structural fuel (the
theorem shrink_font_eq below recovers the exact while-loop unfolding). -/
def shrink_font (measure : String → Int → Int × Int) (text : String)
    (max_text_width : Int) (size : Int) : Int :=
  shrink_font_aux measure text max_text_width (size - 8).toNat size

/-- app.py lines 52-105, `create_label_pages(qr_images, ...)`: for
each (label_text, qr_img) pair produce one label canvas of fixed
pixel dimensions LABEL_W × LABEL_H with a border, the QR resized to
qr_size × qr_size and pasted horizontally centered at start_y, and
the caption drawn horizontally centered below the QR.  Text
measurement (`_text_size` backed by Pillow, composed with `_load_font`)
is the abstract parameter `measure`; Python `//` is Lean integer
division `/` (the divisor, 2, is positive). -/
def create_label_pages (measure : String → Int → Int × Int)
    (qr_images : List (String × PILImage)) (cfg : LabelConfig) : List Label :=
  let LABEL_W : Int := pyRound (cfg.label_width_in * cfg.dpi)
  let LABEL_H : Int := pyRound (cfg.label_height_in * cfg.dpi)
  let qr_size : Int := pyInt ((LABEL_W : ℚ) * cfg.qr_width_ratio)
  qr_images.map (fun p =>
    let label_text := p.1
    let base_font_size := max 8 (pyInt ((qr_size : ℚ) * cfg.font_width_ratio))
    let max_text_width := LABEL_W - 2 * cfg.inner_margin_px
    let font_size := shrink_font measure label_text max_text_width base_font_size
    let tw := (measure label_text font_size).1
    let th := (measure label_text font_size).2
    let content_height := qr_size + cfg.vertical_spacing_px + th
    let start_y := max cfg.inner_margin_px ((LABEL_H - content_height) / 2)
    let qr_x := (LABEL_W - qr_size) / 2
    let qr_y := start_y
    let text_x := (LABEL_W - tw) / 2
    let text_y := qr_y + qr_size + cfg.vertical_spacing_px
    { page_w := LABEL_W, page_h := LABEL_H,
      border_thickness_px := cfg.border_thickness_px,
      qr_size := qr_size, font_size := font_size, tw := tw, th := th,
      qr_x := qr_x, qr_y := qr_y, text_x := text_x, text_y := text_y,
      label_text := label_text })

theorem pyRange_one_succ (count : Int) :
    pyRange 1 (count + 1) = (List.range count.toNat).map (fun k => 1 + (k : Int)) := by
  simp [pyRange]

/-- Claim C1: for every count ≥ 2 the sequence expander produces
exactly count payload strings, the (k+1)-st being base ++ "-" ++ (k+1),
in order, and for count = 1 it produces exactly [base] with no suffix. -/
theorem generate_split_qrs_payloads_correct (make_qr : String → PILImage)
    (base : String) (count : Int) :
    (2 ≤ count →
      (generate_split_qrs make_qr base count).map Prod.fst
        = (List.range count.toNat).map (fun k => base ++ "-" ++ toString ((k : Int) + 1))) ∧
    (generate_split_qrs make_qr base 1).map Prod.fst = [base] := by
  constructor
  · intro h
    have hgt : count > 1 := by omega
    simp only [generate_split_qrs, pyRange_one_succ, List.map_map]
    apply List.map_congr_left
    intro k _
    simp only [Function.comp, hgt, if_pos]
    rw [Int.add_comm]
  · rfl

/-- Claim C1 witness: the payload lists at base "AB" with counts 2 and 1. -/
theorem generate_split_qrs_payloads_correct_witness :
    (generate_split_qrs (fun _ => PILImage.mk 1 1) "AB" 2).map Prod.fst
      = (List.range (2 : Int).toNat).map (fun k => "AB" ++ "-" ++ toString ((k : Int) + 1)) ∧
    (generate_split_qrs (fun _ => PILImage.mk 1 1) "AB" 1).map Prod.fst = ["AB"] :=
  ⟨(generate_split_qrs_payloads_correct (fun _ => PILImage.mk 1 1) "AB" 2).1 (by decide),
   (generate_split_qrs_payloads_correct (fun _ => PILImage.mk 1 1) "AB" 1).2⟩

/-- Claim C2 counterexample: on base "" with count 1 the spec-modelled
expander demands an InvalidInput failure with no payload list, but the
source's `generate_split_qrs` raises nothing and produces the payload
list [""]. -/
theorem empty_base_still_produces_payload :
    sequence_expander_spec "" 1 = Except.error AppError.invalidInput ∧
    (generate_split_qrs (fun _ => PILImage.mk 1 1) "" 1).map Prod.fst = [""] := by
  constructor
  · rfl
  · rfl

/-- Claim C2 amended: `generate_split_qrs` itself performs no
validation and never fails — count < 1 yields the empty list and an
empty base yields payloads built from the empty base — while the
empty-input check is performed by the submit handler, which reports an
error and never calls the expander when the stripped input is empty
(and the count widget enforces count ≥ 1 upstream). -/
theorem validation_in_ui_not_expander (make_qr : String → PILImage)
    (s : String) (c : Int) :
    (pyStrip s = "" → generate_mode_submit make_qr s c
        = Except.error "Please enter some text.") ∧
    (c < 1 → generate_split_qrs make_qr s c = []) ∧
    (generate_split_qrs make_qr "" 1).map Prod.fst = [""] := by
  refine ⟨fun h => ?_, fun h => ?_, rfl⟩
  · simp [generate_mode_submit, h]
  · simp only [generate_split_qrs, pyRange]
    rw [show (c + 1 - 1).toNat = 0 by omega]
    rfl

/-- Claim C2 amended witness: at the empty input with count 0, the
submit handler errors out and the expander returns the empty list. -/
theorem validation_in_ui_not_expander_witness :
    (generate_mode_submit (fun _ => PILImage.mk 1 1) "" 0
        = Except.error "Please enter some text.") ∧
    generate_split_qrs (fun _ => PILImage.mk 1 1) "" 0 = [] :=
  ⟨(validation_in_ui_not_expander (fun _ => PILImage.mk 1 1) "" 0).1 rfl,
   (validation_in_ui_not_expander (fun _ => PILImage.mk 1 1) "" 0).2.1 (by decide)⟩

/-- Claim C9: for every count < 1 the sequence expander returns the
empty list (range(1, count+1) is empty), raising nothing. -/
theorem generate_split_qrs_count_lt_one_empty (make_qr : String → PILImage)
    (base : String) (count : Int) (h : count < 1) :
    generate_split_qrs make_qr base count = [] := by
  simp only [generate_split_qrs, pyRange]
  rw [show (count + 1 - 1).toNat = 0 by omega]
  rfl

/-- Claim C9 witness: count 0 yields the empty list. -/
theorem generate_split_qrs_count_lt_one_empty_witness :
    generate_split_qrs (fun _ => PILImage.mk 1 1) "X" 0 = [] :=
  generate_split_qrs_count_lt_one_empty (fun _ => PILImage.mk 1 1) "X" 0 (by decide)

/-- The fuel-counted shrink definition satisfies the exact unfolding
equation of the source's while loop. -/
theorem shrink_font_eq (measure : String → Int → Int × Int) (text : String)
    (max_text_width size : Int) :
    shrink_font measure text max_text_width size
      = if (measure text size).1 > max_text_width ∧ size > 8 then
          shrink_font measure text max_text_width (size - 1)
        else size := by
  unfold shrink_font
  rcases le_or_lt size 8 with h | h
  · rw [show (size - 8).toNat = 0 by omega]
    rw [if_neg (fun hc => absurd hc.2 (by omega))]
    rfl
  · rw [show (size - 8).toNat = (size - 9).toNat + 1 by omega]
    simp only [shrink_font_aux]
    rw [show (size - 1 - 8).toNat = (size - 9).toNat by omega]

/-- Loop invariant of the auto-shrink loop: with enough fuel for the
distance to the minimum size 8, the result stays in [8, size] and
either the measured width fits or the minimum size was reached. -/
theorem shrink_font_aux_post (measure : String → Int → Int × Int) (text : String)
    (max_text_width : Int) (fuel : Nat) :
    ∀ size : Int, 8 ≤ size → size ≤ 8 + fuel →
      (8 ≤ shrink_font_aux measure text max_text_width fuel size ∧
        shrink_font_aux measure text max_text_width fuel size ≤ size) ∧
      ((measure text (shrink_font_aux measure text max_text_width fuel size)).1
          ≤ max_text_width ∨
        shrink_font_aux measure text max_text_width fuel size = 8) := by
  induction fuel with
  | zero =>
    intro size h1 h2
    simp only [shrink_font_aux]
    omega
  | succ fuel ih =>
    intro size h1 h2
    simp only [shrink_font_aux]
    split
    · rename_i hc
      have h3 := ih (size - 1) (by omega) (by omega)
      have h4 := h3.1.1
      have h5 := h3.1.2
      exact ⟨⟨h4, by omega⟩, h3.2⟩
    · rename_i hc
      omega

/-- Postcondition of the auto-shrink loop at its actual fuel. -/
theorem shrink_font_post (measure : String → Int → Int × Int) (text : String)
    (max_text_width size : Int) (h : 8 ≤ size) :
    (8 ≤ shrink_font measure text max_text_width size ∧
      shrink_font measure text max_text_width size ≤ size) ∧
    ((measure text (shrink_font measure text max_text_width size)).1
        ≤ max_text_width ∨
      shrink_font measure text max_text_width size = 8) :=
  shrink_font_aux_post measure text max_text_width (size - 8).toNat size h (by omega)

/-- Every label produced by `create_label_pages` carries the caption
of its input pair, in order: helper shared by the totality and paging
theorems. -/
theorem create_label_pages_label_text (measure : String → Int → Int × Int)
    (qr_images : List (String × PILImage)) (cfg : LabelConfig) :
    (create_label_pages measure qr_images cfg).map Label.label_text
      = qr_images.map Prod.fst := by
  simp only [create_label_pages, List.map_map]
  apply List.map_congr_left
  intro p _
  rfl

/-- Claim C3: every canvas produced by the label compositor has pixel
dimensions exactly (W, H) with W = round(label_width_in · dpi) and
H = round(label_height_in · dpi), independent of the caption text and
of the input QR image's size. -/
theorem label_pages_fixed_dimensions (measure : String → Int → Int × Int)
    (qr_images : List (String × PILImage)) (cfg : LabelConfig) :
    ∀ lb ∈ create_label_pages measure qr_images cfg,
      lb.page_w = pyRound (cfg.label_width_in * cfg.dpi) ∧
      lb.page_h = pyRound (cfg.label_height_in * cfg.dpi) := by
  intro lb hlb
  simp only [create_label_pages, List.mem_map] at hlb
  obtain ⟨p, hp, rfl⟩ := hlb
  exact ⟨rfl, rfl⟩

/-- Claim C3 witness: the one canvas of a singleton run at the default
configuration has the configured dimensions. -/
theorem label_pages_fixed_dimensions_witness :
    ((create_label_pages (fun _ _ => (0, 0)) [("A", PILImage.mk 10 10)] {}).getD 0 default).page_w
        = pyRound (({} : LabelConfig).label_width_in * ({} : LabelConfig).dpi) ∧
    ((create_label_pages (fun _ _ => (0, 0)) [("A", PILImage.mk 10 10)] {}).getD 0 default).page_h
        = pyRound (({} : LabelConfig).label_height_in * ({} : LabelConfig).dpi) :=
  label_pages_fixed_dimensions (fun _ _ => (0, 0)) [("A", PILImage.mk 10 10)] {}
    ((create_label_pages (fun _ _ => (0, 0)) [("A", PILImage.mk 10 10)] {}).getD 0 default)
    (by simp [create_label_pages])

/-- Claim C4: the caption shrink loop starts at
max(8, int(qr_size · font_width_ratio)), never goes below the minimum
font size 8, terminates, and ends with the measured width within
W - 2·inner_margin or with the size at the minimum 8. -/
theorem font_shrink_fits_or_min (measure : String → Int → Int × Int)
    (qr_images : List (String × PILImage)) (cfg : LabelConfig) :
    ∀ lb ∈ create_label_pages measure qr_images cfg,
      (8 ≤ lb.font_size ∧
        lb.font_size ≤ max 8 (pyInt ((pyInt ((pyRound (cfg.label_width_in * cfg.dpi) : ℚ)
            * cfg.qr_width_ratio) : ℚ) * cfg.font_width_ratio))) ∧
      (lb.tw ≤ pyRound (cfg.label_width_in * cfg.dpi) - 2 * cfg.inner_margin_px ∨
        lb.font_size = 8) := by
  intro lb hlb
  simp only [create_label_pages, List.mem_map] at hlb
  obtain ⟨p, hp, rfl⟩ := hlb
  have hpost := shrink_font_post measure p.1
    (pyRound (cfg.label_width_in * cfg.dpi) - 2 * cfg.inner_margin_px)
    (max 8 (pyInt ((pyInt ((pyRound (cfg.label_width_in * cfg.dpi) : ℚ)
        * cfg.qr_width_ratio) : ℚ) * cfg.font_width_ratio)))
    (le_max_left _ _)
  exact ⟨⟨hpost.1.1, hpost.1.2⟩, hpost.2⟩

/-- Claim C4 witness: a measurement that never fits (width size + 280
against usable width 284) drives the loop down to the minimum size 8. -/
theorem font_shrink_fits_or_min_witness :
    (8 ≤ ((create_label_pages (fun _ s => (s + 280, 10)) [("HELLO", PILImage.mk 5 5)] {}).getD 0 default).font_size ∧
      ((create_label_pages (fun _ s => (s + 280, 10)) [("HELLO", PILImage.mk 5 5)] {}).getD 0 default).font_size
        ≤ max 8 (pyInt ((pyInt ((pyRound (({} : LabelConfig).label_width_in * ({} : LabelConfig).dpi) : ℚ)
            * ({} : LabelConfig).qr_width_ratio) : ℚ) * ({} : LabelConfig).font_width_ratio))) ∧
    (((create_label_pages (fun _ s => (s + 280, 10)) [("HELLO", PILImage.mk 5 5)] {}).getD 0 default).tw
        ≤ pyRound (({} : LabelConfig).label_width_in * ({} : LabelConfig).dpi)
            - 2 * ({} : LabelConfig).inner_margin_px ∨
      ((create_label_pages (fun _ s => (s + 280, 10)) [("HELLO", PILImage.mk 5 5)] {}).getD 0 default).font_size = 8) :=
  font_shrink_fits_or_min (fun _ s => (s + 280, 10)) [("HELLO", PILImage.mk 5 5)] {}
    ((create_label_pages (fun _ s => (s + 280, 10)) [("HELLO", PILImage.mk 5 5)] {}).getD 0 default)
    (by simp [create_label_pages])

/-- Claim C5: the QR is pasted horizontally centered at
start_y = max(inner_margin, (H - content_height) / 2) with
content_height = qr_size + vertical_spacing + caption height, the
caption is drawn horizontally centered at
start_y + qr_size + vertical_spacing, and content taller than the
canvas pins the block to the top margin without any error. -/
theorem qr_caption_placement (measure : String → Int → Int × Int)
    (qr_images : List (String × PILImage)) (cfg : LabelConfig)
    (hm : 0 ≤ cfg.inner_margin_px) :
    ∀ lb ∈ create_label_pages measure qr_images cfg,
      lb.qr_x = (pyRound (cfg.label_width_in * cfg.dpi) - lb.qr_size) / 2 ∧
      lb.qr_y = max cfg.inner_margin_px
          ((pyRound (cfg.label_height_in * cfg.dpi)
              - (lb.qr_size + cfg.vertical_spacing_px + lb.th)) / 2) ∧
      lb.text_x = (pyRound (cfg.label_width_in * cfg.dpi) - lb.tw) / 2 ∧
      lb.text_y = lb.qr_y + lb.qr_size + cfg.vertical_spacing_px ∧
      (pyRound (cfg.label_height_in * cfg.dpi)
          < lb.qr_size + cfg.vertical_spacing_px + lb.th →
        lb.qr_y = cfg.inner_margin_px) := by
  intro lb hlb
  simp only [create_label_pages, List.mem_map] at hlb
  obtain ⟨p, hp, rfl⟩ := hlb
  refine ⟨rfl, rfl, rfl, rfl, fun hov => ?_⟩
  dsimp only at hov ⊢
  omega

/-- Claim C5 witness: placement equations for a singleton run at the
default configuration. -/
theorem qr_caption_placement_witness :
    ((create_label_pages (fun _ _ => (3, 7)) [("B", PILImage.mk 4 4)] {}).getD 0 default).qr_x
        = (pyRound (({} : LabelConfig).label_width_in * ({} : LabelConfig).dpi)
            - ((create_label_pages (fun _ _ => (3, 7)) [("B", PILImage.mk 4 4)] {}).getD 0 default).qr_size) / 2 ∧
    ((create_label_pages (fun _ _ => (3, 7)) [("B", PILImage.mk 4 4)] {}).getD 0 default).qr_y
        = max (({} : LabelConfig).inner_margin_px)
            ((pyRound (({} : LabelConfig).label_height_in * ({} : LabelConfig).dpi)
                - (((create_label_pages (fun _ _ => (3, 7)) [("B", PILImage.mk 4 4)] {}).getD 0 default).qr_size
                    + ({} : LabelConfig).vertical_spacing_px
                    + ((create_label_pages (fun _ _ => (3, 7)) [("B", PILImage.mk 4 4)] {}).getD 0 default).th)) / 2) ∧
    ((create_label_pages (fun _ _ => (3, 7)) [("B", PILImage.mk 4 4)] {}).getD 0 default).text_x
        = (pyRound (({} : LabelConfig).label_width_in * ({} : LabelConfig).dpi)
            - ((create_label_pages (fun _ _ => (3, 7)) [("B", PILImage.mk 4 4)] {}).getD 0 default).tw) / 2 ∧
    ((create_label_pages (fun _ _ => (3, 7)) [("B", PILImage.mk 4 4)] {}).getD 0 default).text_y
        = ((create_label_pages (fun _ _ => (3, 7)) [("B", PILImage.mk 4 4)] {}).getD 0 default).qr_y
            + ((create_label_pages (fun _ _ => (3, 7)) [("B", PILImage.mk 4 4)] {}).getD 0 default).qr_size
            + ({} : LabelConfig).vertical_spacing_px ∧
    (pyRound (({} : LabelConfig).label_height_in * ({} : LabelConfig).dpi)
        < ((create_label_pages (fun _ _ => (3, 7)) [("B", PILImage.mk 4 4)] {}).getD 0 default).qr_size
            + ({} : LabelConfig).vertical_spacing_px
            + ((create_label_pages (fun _ _ => (3, 7)) [("B", PILImage.mk 4 4)] {}).getD 0 default).th →
      ((create_label_pages (fun _ _ => (3, 7)) [("B", PILImage.mk 4 4)] {}).getD 0 default).qr_y
          = ({} : LabelConfig).inner_margin_px) :=
  qr_caption_placement (fun _ _ => (3, 7)) [("B", PILImage.mk 4 4)] {} (by decide)
    ((create_label_pages (fun _ _ => (3, 7)) [("B", PILImage.mk 4 4)] {}).getD 0 default)
    (by simp [create_label_pages])

/-- Claim C6: the label compositor is total on its documented domain —
for every payload string (the empty string included), every QR image
with positive side lengths and every configuration, it returns one
canvas per input with the input's caption, raising nothing; oversized
captions and QR images are laid out all the same. -/
theorem create_label_pages_total (measure : String → Int → Int × Int)
    (cfg : LabelConfig) (qr_images : List (String × PILImage))
    (_h : ∀ p ∈ qr_images, 0 < p.2.width ∧ 0 < p.2.height) :
    (create_label_pages measure qr_images cfg).map Label.label_text
      = qr_images.map Prod.fst :=
  create_label_pages_label_text measure qr_images cfg

/-- Claim C6 witness: a run on the empty payload still yields its
canvas. -/
theorem create_label_pages_total_witness :
    (create_label_pages (fun _ _ => (0, 0)) [("", PILImage.mk 2 3)] {}).map Label.label_text
      = [("", PILImage.mk 2 3)].map Prod.fst :=
  create_label_pages_total (fun _ _ => (0, 0)) {} [("", PILImage.mk 2 3)] (by decide)

/-- Claim C7: in the one-per-page layout the exported document has
exactly one page per generated payload in input order, and the "ABC"
with count 3 scenario yields the payloads ABC-1, ABC-2, ABC-3, three
canvases and a three-page document. -/
theorem one_page_per_payload_in_order :
    (∀ (measure : String → Int → Int × Int) (cfg : LabelConfig)
        (qr_images : List (String × PILImage)), qr_images ≠ [] →
        save_pages_to_pdf_bytes (create_label_pages measure qr_images cfg)
            = PDFOutput.pdf (create_label_pages measure qr_images cfg) ∧
        (create_label_pages measure qr_images cfg).map Label.label_text
            = qr_images.map Prod.fst) ∧
    (generate_split_qrs (fun _ => PILImage.mk 1 1) "ABC" 3).map Prod.fst
        = ["ABC-1", "ABC-2", "ABC-3"] ∧
    (create_label_pages (fun _ _ => (0, 0))
        (generate_split_qrs (fun _ => PILImage.mk 1 1) "ABC" 3) {}).length = 3 ∧
    (save_pages_to_pdf_bytes (create_label_pages (fun _ _ => (0, 0))
        (generate_split_qrs (fun _ => PILImage.mk 1 1) "ABC" 3) {})).numPages = 3 := by
  refine ⟨fun measure cfg qr_images hne => ?_, by decide, rfl, rfl⟩
  cases qr_images with
  | nil => exact absurd rfl hne
  | cons p rest =>
    exact ⟨rfl, create_label_pages_label_text measure (p :: rest) cfg⟩

/-- Claim C7 witness: the general one-page-per-canvas conjunct at a
concrete nonempty input. -/
theorem one_page_per_payload_in_order_witness :
    save_pages_to_pdf_bytes (create_label_pages (fun _ _ => (0, 0)) [("X", PILImage.mk 1 1)] {})
        = PDFOutput.pdf (create_label_pages (fun _ _ => (0, 0)) [("X", PILImage.mk 1 1)] {}) ∧
    (create_label_pages (fun _ _ => (0, 0)) [("X", PILImage.mk 1 1)] {}).map Label.label_text
        = [("X", PILImage.mk 1 1)].map Prod.fst :=
  one_page_per_payload_in_order.1 (fun _ _ => (0, 0)) {} [("X", PILImage.mk 1 1)]
    (List.cons_ne_nil _ _)

/-- Claim C10: serializing the empty page list returns the empty byte
string, not a zero-page PDF document, and raises nothing. -/
theorem save_pages_empty_returns_empty_bytes :
    save_pages_to_pdf_bytes ([] : List Label) = PDFOutput.emptyBytes ∧
    (PDFOutput.emptyBytes : PDFOutput Label) ≠ PDFOutput.pdf [] :=
  ⟨rfl, by decide⟩

end QrSplitter
